import Mathlib

/-!
Verification of the access-control and delegation engine of the
`coursedeployment` repository (`server/routes.ts`: the Express route
handlers, the `MemStorage` in-memory store and the drizzle schema).

The embedding translates the storage methods and the access-control route
handlers into pure Lean functions over an explicit `MemStorage` state.
JavaScript `Date` values are modelled as integer timestamps (milliseconds),
`Map<number, T>` as a list of records in insertion order (matching
`Array.from(map.values())`), and `String.prototype.toLowerCase()` as a
character-wise ASCII lowercase map.
-/

/-- Models JavaScript `s.toLowerCase()`: character-wise lowercasing.
Defined on the underlying character list (equal to `String.toLower`,
see `lowercase_eq_toLower`) so that it evaluates by `decide`. -/
def lowercase (s : String) : String := ⟨s.data.map Char.toLower⟩

theorem lowercase_eq_toLower (s : String) : lowercase s = s.toLower :=
  (String.map_eq Char.toLower s).symm

theorem char_toLower_idem (c : Char) : c.toLower.toLower = c.toLower := by
  unfold Char.toLower
  by_cases h : 65 ≤ c.toNat ∧ c.toNat ≤ 90
  · rw [if_pos h]
    have hv : (c.toNat + 32).isValidChar := Or.inl (by omega)
    have ht : (Char.ofNat (c.toNat + 32)).toNat = c.toNat + 32 := by
      rw [Char.ofNat, dif_pos hv]; rfl
    rw [if_neg (by omega)]
  · rw [if_neg h, if_neg h]

theorem lowercase_idem (s : String) : lowercase (lowercase s) = lowercase s := by
  unfold lowercase
  simp [List.map_map, Function.comp_def, char_toLower_idem]

theorem lowercase_eq_empty_iff (s : String) : lowercase s = "" ↔ s = "" := by
  unfold lowercase
  constructor
  · intro h
    have hd : s.data.map Char.toLower = [] := congrArg String.data h
    rcases s with ⟨d⟩
    simp at hd
    simp [hd]
  · intro h; subst h; rfl

/-! ## Data model (schema.ts) -/

/-- `users` table row (fields relevant to access control). -/
structure User where
  id : Nat
  username : String
  walletAddress : Option String
  isCreator : Bool
deriving Repr, DecidableEq

/-- `nft_ownership` table row: permanent course ownership. -/
structure NftOwnership where
  id : Nat
  courseId : Nat
  ownerId : Nat
  tokenId : String
  mintedAt : Int
  transactionHash : Option String
deriving Repr, DecidableEq

/-- `temporary_access` table row: a time-bounded delegated access grant. -/
structure TemporaryAccess where
  id : Nat
  ownershipId : Nat
  recipientAddress : String
  expiresAt : Int
  isActive : Bool
  createdAt : Int
deriving Repr, DecidableEq

/-- `access_requests` table row. -/
structure AccessRequest where
  id : Nat
  courseId : Nat
  requesterAddress : String
  ownerAddress : String
  requestMessage : Option String
  requestDuration : Int
  status : String
  createdAt : Int
  updatedAt : Int
deriving Repr, DecidableEq

/-- `courses` table row (fields relevant to the request listings' join). -/
structure Course where
  id : Nat
  creatorId : Nat
  title : String
  isPublished : Bool
deriving Repr, DecidableEq

/-- Input of `storage.createTemporaryAccess` (insertTemporaryAccessSchema). -/
structure InsertTemporaryAccess where
  ownershipId : Nat
  recipientAddress : String
  expiresAt : Int
deriving Repr, DecidableEq

/-- Input of `storage.createAccessRequest` (insertAccessRequestSchema). -/
structure InsertAccessRequest where
  courseId : Nat
  requesterAddress : String
  ownerAddress : String
  requestMessage : Option String
  requestDuration : Int
  status : Option String
deriving Repr, DecidableEq

/-- The `MemStorage` in-memory store: each `Map<number, T>` becomes a list in
insertion order, together with the auto-increment counters. -/
structure MemStorage where
  users : List User
  courses : List Course
  ownerships : List NftOwnership
  temporaryAccesses : List TemporaryAccess
  accessRequests : List AccessRequest
  userId : Nat
  ownershipId : Nat
  temporaryAccessId : Nat
  accessRequestId : Nat
deriving Repr, DecidableEq

namespace MemStorage

/-- `MemStorage.getUserByWalletAddress`: case-insensitive wallet lookup
(`user.walletAddress?.toLowerCase() === walletAddress?.toLowerCase()`). -/
def getUserByWalletAddress (st : MemStorage) (walletAddress : String) : Option User :=
  st.users.find? fun user =>
    match user.walletAddress with
    | some a => lowercase a == lowercase walletAddress
    | none => false

/-- `MemStorage.getNftOwnership`: lookup by id. -/
def getNftOwnership (st : MemStorage) (id : Nat) : Option NftOwnership :=
  st.ownerships.find? fun o => o.id == id

/-- `MemStorage.getNftOwnershipByCourseAndOwner`. -/
def getNftOwnershipByCourseAndOwner (st : MemStorage) (courseId ownerId : Nat) :
    Option NftOwnership :=
  st.ownerships.find? fun o => o.courseId == courseId && o.ownerId == ownerId

/-- `MemStorage.createTemporaryAccess`: inserts a new grant with
`isActive: true`, `createdAt: now` and the next auto-increment id. -/
def createTemporaryAccess (st : MemStorage) (insertAccess : InsertTemporaryAccess)
    (now : Int) : TemporaryAccess × MemStorage :=
  let id := st.temporaryAccessId
  let access : TemporaryAccess :=
    { id := id
      ownershipId := insertAccess.ownershipId
      recipientAddress := insertAccess.recipientAddress
      expiresAt := insertAccess.expiresAt
      isActive := true
      createdAt := now }
  (access, { st with temporaryAccesses := st.temporaryAccesses ++ [access]
                     temporaryAccessId := st.temporaryAccessId + 1 })

/-- `MemStorage.getActiveTemporaryAccess`: first grant for the
(ownershipId, normalized recipient) pair that is active and unexpired
(`access.isActive && access.expiresAt > now`). -/
def getActiveTemporaryAccess (st : MemStorage) (ownershipId : Nat)
    (recipientAddress : String) (now : Int) : Option TemporaryAccess :=
  let normalizedRecipientAddress := lowercase recipientAddress
  st.temporaryAccesses.find? fun access =>
    access.ownershipId == ownershipId &&
    lowercase access.recipientAddress == normalizedRecipientAddress &&
    access.isActive &&
    decide (access.expiresAt > now)

/-- `MemStorage.deactivateTemporaryAccess`: sets `isActive = false` on the
grant with the given id; `false` if no such grant. -/
def deactivateTemporaryAccess (st : MemStorage) (id : Nat) : Bool × MemStorage :=
  match st.temporaryAccesses.find? (fun a => a.id == id) with
  | none => (false, st)
  | some _ =>
    (true, { st with temporaryAccesses :=
        st.temporaryAccesses.map fun a =>
          if a.id == id then { a with isActive := false } else a })

/-- `MemStorage.checkTemporaryAccess`: does any ownership of the course carry
an active, unexpired grant to the (normalized) wallet? -/
def checkTemporaryAccess (st : MemStorage) (courseId : Nat) (walletAddress : String)
    (now : Int) : Bool :=
  let normalizedWalletAddress := lowercase walletAddress
  let courseOwnerships := st.ownerships.filter fun o => o.courseId == courseId
  courseOwnerships.any fun ownership =>
    st.temporaryAccesses.any fun access =>
      access.ownershipId == ownership.id &&
      lowercase access.recipientAddress == normalizedWalletAddress &&
      access.isActive &&
      decide (access.expiresAt > now)

/-- `MemStorage.createAccessRequest`: inserts with the next id, `createdAt`
and `updatedAt` set to now, and `status` defaulting to `"pending"`. -/
def createAccessRequest (st : MemStorage) (insertRequest : InsertAccessRequest)
    (now : Int) : AccessRequest × MemStorage :=
  let id := st.accessRequestId
  let request : AccessRequest :=
    { id := id
      courseId := insertRequest.courseId
      requesterAddress := insertRequest.requesterAddress
      ownerAddress := insertRequest.ownerAddress
      requestMessage := insertRequest.requestMessage
      requestDuration := insertRequest.requestDuration
      status := insertRequest.status.getD "pending"
      createdAt := now
      updatedAt := now }
  (request, { st with accessRequests := st.accessRequests ++ [request]
                      accessRequestId := st.accessRequestId + 1 })

/-- `MemStorage.getAccessRequestById`. -/
def getAccessRequestById (st : MemStorage) (id : Nat) : Option AccessRequest :=
  st.accessRequests.find? fun r => r.id == id

/-- `MemStorage.updateAccessRequestStatus`: overwrites `status` and bumps
`updatedAt` on the request with the given id; no guard on the current
status. -/
def updateAccessRequestStatus (st : MemStorage) (id : Nat) (status : String)
    (now : Int) : Option AccessRequest × MemStorage :=
  match st.accessRequests.find? (fun r => r.id == id) with
  | none => (none, st)
  | some request =>
    let updatedRequest := { request with status := status, updatedAt := now }
    (some updatedRequest,
     { st with accessRequests :=
         st.accessRequests.map fun r => if r.id == id then updatedRequest else r })

/-- Stable insertion used to model `Array.prototype.sort` with comparator
`(a, b) => dateB - dateA` (descending `createdAt`, stable). -/
def insertByCreatedAtDesc (r : AccessRequest) : List AccessRequest → List AccessRequest
  | [] => [r]
  | x :: xs =>
    if r.createdAt ≤ x.createdAt then x :: insertByCreatedAtDesc r xs
    else r :: x :: xs

/-- Sort by `createdAt` descending (stable), as the request listings do. -/
def sortByCreatedAtDesc (l : List AccessRequest) : List AccessRequest :=
  l.foldr insertByCreatedAtDesc []

/-- `MemStorage.getAccessRequestsByRequester`: case-insensitive filter on
`requesterAddress`, newest first, joined with the course (an error if a
request's course is missing, as the source `throw`s there). -/
def getAccessRequestsByRequester (st : MemStorage) (requesterAddress : String) :
    Except String (List (AccessRequest × Course)) :=
  let normalizedRequesterAddress := lowercase requesterAddress
  let requests := sortByCreatedAtDesc
    (st.accessRequests.filter fun r =>
      lowercase r.requesterAddress == normalizedRequesterAddress)
  requests.mapM fun request =>
    match st.courses.find? (fun c => c.id == request.courseId) with
    | none => .error "Course not found for request"
    | some course => .ok (request, course)

/-- `MemStorage.getAccessRequestsByOwner`: case-insensitive filter on
`ownerAddress`, newest first, joined with the course. -/
def getAccessRequestsByOwner (st : MemStorage) (ownerAddress : String) :
    Except String (List (AccessRequest × Course)) :=
  let normalizedOwnerAddress := lowercase ownerAddress
  let requests := sortByCreatedAtDesc
    (st.accessRequests.filter fun r =>
      lowercase r.ownerAddress == normalizedOwnerAddress)
  requests.mapM fun request =>
    match st.courses.find? (fun c => c.id == request.courseId) with
    | none => .error "Course not found for request"
    | some course => .ok (request, course)

end MemStorage

/-! ## The spec's liveness predicate (§4.3 `isEffectivelyActive`) -/

/-- Effective liveness of a delegated grant: `isActive && expiresAt > now`. -/
def isEffectivelyActive (grant : TemporaryAccess) (now : Int) : Bool :=
  grant.isActive && decide (grant.expiresAt > now)

/-! ## Route handlers (routes.ts) -/

/-- Access type reported by `POST /api/access/check`. -/
inductive AccessType
  | owner
  | temporary
deriving Repr, DecidableEq

/-- Outcome of `POST /api/access/check`. The 200 response carries
`hasAccess` and, when access is granted, `accessType` (the no-access
response omits the field, modelled as `none`). -/
inductive CheckAccessResult
  | badRequest
  | ok (hasAccess : Bool) (accessType : Option AccessType)
deriving Repr, DecidableEq

/-- `POST /api/access/check`: ownership first (via the registered user for
the wallet), then delegated access; otherwise no access. -/
def checkAccess (st : MemStorage) (courseId : Nat) (walletAddress : String)
    (now : Int) : CheckAccessResult :=
  if courseId == 0 || walletAddress == "" then .badRequest
  else
    let normalizedWalletAddress := lowercase walletAddress
    match st.getUserByWalletAddress normalizedWalletAddress with
    | some user =>
      match st.getNftOwnershipByCourseAndOwner courseId user.id with
      | some _ => .ok true (some .owner)
      | none =>
        if st.checkTemporaryAccess courseId normalizedWalletAddress now then
          .ok true (some .temporary)
        else .ok false none
    | none =>
      if st.checkTemporaryAccess courseId normalizedWalletAddress now then
        .ok true (some .temporary)
      else .ok false none

/-- Outcome of `POST /api/access/share`. -/
inductive ShareAccessResult
  | missingRecipient
  | ownershipNotFound
  | duplicateActiveGrant
  | created (access : TemporaryAccess)
deriving Repr, DecidableEq

/-- `POST /api/access/share`: normalizes the recipient, requires the
ownership to exist, rejects when an active unexpired grant for the
(ownershipId, recipient) pair already exists, otherwise creates the grant. -/
def shareAccess (st : MemStorage) (ownershipId : Nat) (recipientAddress : String)
    (expiresAt : Int) (now : Int) : ShareAccessResult × MemStorage :=
  if recipientAddress == "" then (.missingRecipient, st)
  else
    let normalizedRecipientAddress := lowercase recipientAddress
    match st.getNftOwnership ownershipId with
    | none => (.ownershipNotFound, st)
    | some _ =>
      match st.getActiveTemporaryAccess ownershipId normalizedRecipientAddress now with
      | some _ => (.duplicateActiveGrant, st)
      | none =>
        let result := st.createTemporaryAccess
          { ownershipId := ownershipId
            recipientAddress := normalizedRecipientAddress
            expiresAt := expiresAt } now
        (.created result.1, result.2)

/-- Outcome of `POST /api/access/revoke/:accessId`. -/
inductive RevokeAccessResult
  | notFound
  | revoked
deriving Repr, DecidableEq

/-- `POST /api/access/revoke/:accessId`. -/
def revokeAccess (st : MemStorage) (accessId : Nat) : RevokeAccessResult × MemStorage :=
  let result := st.deactivateTemporaryAccess accessId
  if result.1 then (.revoked, result.2) else (.notFound, result.2)

/-- `POST /api/access-requests`: normalizes both addresses and creates the
request with `status: 'pending'`; the schema validation imposes no bound on
`requestDuration`. -/
def submitAccessRequest (st : MemStorage) (courseId : Nat)
    (requesterAddress ownerAddress : String) (requestMessage : Option String)
    (requestDuration : Int) (now : Int) : AccessRequest × MemStorage :=
  let normalizedRequesterAddress := lowercase requesterAddress
  let normalizedOwnerAddress := lowercase ownerAddress
  st.createAccessRequest
    { courseId := courseId
      requesterAddress := normalizedRequesterAddress
      ownerAddress := normalizedOwnerAddress
      requestMessage := requestMessage
      requestDuration := requestDuration
      status := some "pending" } now

/-- Outcome of `PATCH /api/access-requests/:id/status`. On approval the
grant sub-step can fail after the status update is already persisted:
`ownerNotFound` and `ownershipMissing` are those partial failures, distinct
from the total failures `invalidStatusValue` and `requestNotFound`. -/
inductive SetStatusResult
  | invalidStatusValue
  | requestNotFound
  | ownerNotFound
  | ownershipMissing
  | approvedAccessGranted (updatedRequest : AccessRequest) (expiresAt : Int)
  | statusUpdated (updatedRequest : AccessRequest)
deriving Repr, DecidableEq

/-- Milliseconds per day: `expiresAt.setDate(getDate() + requestDuration)`
is modelled as adding `requestDuration` days to `now`. -/
def msPerDay : Int := 86400000

/-- `PATCH /api/access-requests/:id/status`: validates the status string,
looks the request up, persists the status change, and on `'approved'` runs
the grant sub-step (owner lookup, ownership lookup, grant creation) without
rolling the status change back when that sub-step fails. -/
def setRequestStatus (st : MemStorage) (requestId : Nat) (status : String)
    (now : Int) : SetStatusResult × MemStorage :=
  if !(["pending", "approved", "rejected"].contains status) then
    (.invalidStatusValue, st)
  else
    match st.getAccessRequestById requestId with
    | none => (.requestNotFound, st)
    | some request =>
      let update := st.updateAccessRequestStatus requestId status now
      let st1 := update.2
      let updatedRequest := update.1.getD { request with status := status, updatedAt := now }
      if status == "approved" then
        match st1.getUserByWalletAddress request.ownerAddress with
        | none => (.ownerNotFound, st1)
        | some user =>
          match st1.getNftOwnershipByCourseAndOwner request.courseId user.id with
          | none => (.ownershipMissing, st1)
          | some ownership =>
            let expiresAt := now + request.requestDuration * msPerDay
            let creation := st1.createTemporaryAccess
              { ownershipId := ownership.id
                recipientAddress := request.requesterAddress
                expiresAt := expiresAt } now
            (.approvedAccessGranted updatedRequest expiresAt, creation.2)
      else
        (.statusUpdated updatedRequest, st1)

/-! ## Derived notions used by the theorems -/

/-- Number of active, unexpired grants for an (ownershipId, recipient) pair,
with the recipient compared case-insensitively exactly as
`getActiveTemporaryAccess` does. -/
def activeGrantCount (st : MemStorage) (ownershipId : Nat)
    (recipientAddress : String) (now : Int) : Nat :=
  (st.temporaryAccesses.filter fun access =>
    access.ownershipId == ownershipId &&
    lowercase access.recipientAddress == lowercase recipientAddress &&
    access.isActive &&
    decide (access.expiresAt > now)).length

/-- The DelegatedAccess uniqueness invariant of spec §3: at most one active,
non-expired grant per (ownershipId, recipientAddress) pair. -/
def DelegatedAccessInvariant (st : MemStorage) (now : Int) : Prop :=
  ∀ ownershipId recipientAddress,
    activeGrantCount st ownershipId recipientAddress now ≤ 1

/-- A grant is attached to the given course through some ownership and is
addressed (case-insensitively) to the given wallet. -/
def matchesCourseWallet (st : MemStorage) (courseId : Nat) (walletAddress : String)
    (access : TemporaryAccess) : Prop :=
  (∃ o ∈ st.ownerships, o.courseId = courseId ∧ access.ownershipId = o.id) ∧
  lowercase access.recipientAddress = lowercase walletAddress

instance (st : MemStorage) (courseId : Nat) (walletAddress : String)
    (access : TemporaryAccess) :
    Decidable (matchesCourseWallet st courseId walletAddress access) := by
  unfold matchesCourseWallet
  infer_instance

/-! ## Concrete stores used as witnesses and counterexamples -/

/-- Store with one ownership, one live grant to `0xrecipient`, and one
pending access request from `0xrecipient` for the same course. -/
def C1State : MemStorage where
  users := [{ id := 1, username := "owner", walletAddress := some "0xowner",
              isCreator := true }]
  courses := []
  ownerships := [{ id := 1, courseId := 1, ownerId := 1, tokenId := "1",
                   mintedAt := 0, transactionHash := none }]
  temporaryAccesses := [{ id := 1, ownershipId := 1,
                          recipientAddress := "0xrecipient",
                          expiresAt := 1000000000, isActive := true,
                          createdAt := 0 }]
  accessRequests := [{ id := 1, courseId := 1,
                       requesterAddress := "0xrecipient",
                       ownerAddress := "0xowner", requestMessage := none,
                       requestDuration := 7, status := "pending",
                       createdAt := 0, updatedAt := 0 }]
  userId := 2
  ownershipId := 2
  temporaryAccessId := 2
  accessRequestId := 2

/-- Store with a single access request already in the terminal state
`approved`. -/
def C2State : MemStorage where
  users := []
  courses := []
  ownerships := []
  temporaryAccesses := []
  accessRequests := [{ id := 1, courseId := 1, requesterAddress := "0xr",
                       ownerAddress := "0xo", requestMessage := none,
                       requestDuration := 7, status := "approved",
                       createdAt := 0, updatedAt := 0 }]
  userId := 1
  ownershipId := 1
  temporaryAccessId := 1
  accessRequestId := 2

/-- Empty store. -/
def emptyStore : MemStorage where
  users := []
  courses := []
  ownerships := []
  temporaryAccesses := []
  accessRequests := []
  userId := 1
  ownershipId := 1
  temporaryAccessId := 1
  accessRequestId := 1

/-- Store with one pending request whose `ownerAddress` matches no user. -/
def C4State : MemStorage where
  users := []
  courses := []
  ownerships := []
  temporaryAccesses := []
  accessRequests := [{ id := 1, courseId := 1, requesterAddress := "0xr",
                       ownerAddress := "0xghost", requestMessage := none,
                       requestDuration := 7, status := "pending",
                       createdAt := 0, updatedAt := 0 }]
  userId := 1
  ownershipId := 1
  temporaryAccessId := 1
  accessRequestId := 2

/-- Store where the wallet `0xtemp` holds only a delegated grant (no
registered user at all) on the single ownership of course 1. -/
def C5State : MemStorage where
  users := []
  courses := []
  ownerships := [{ id := 1, courseId := 1, ownerId := 1, tokenId := "1",
                   mintedAt := 0, transactionHash := none }]
  temporaryAccesses := [{ id := 1, ownershipId := 1,
                          recipientAddress := "0xtemp", expiresAt := 100,
                          isActive := true, createdAt := 0 }]
  accessRequests := []
  userId := 1
  ownershipId := 2
  temporaryAccessId := 2
  accessRequestId := 1

/-- Store where the user `1` with wallet `0xowner` owns course 1. -/
def C6State : MemStorage where
  users := [{ id := 1, username := "owner", walletAddress := some "0xowner",
              isCreator := true }]
  courses := []
  ownerships := [{ id := 1, courseId := 1, ownerId := 1, tokenId := "1",
                   mintedAt := 0, transactionHash := none }]
  temporaryAccesses := []
  accessRequests := []
  userId := 2
  ownershipId := 2
  temporaryAccessId := 1
  accessRequestId := 1

/-- Store with a single ownership and no grants, for exercising the share
route twice. -/
def C8State : MemStorage where
  users := []
  courses := []
  ownerships := [{ id := 1, courseId := 1, ownerId := 1, tokenId := "1",
                   mintedAt := 0, transactionHash := none }]
  temporaryAccesses := []
  accessRequests := []
  userId := 1
  ownershipId := 2
  temporaryAccessId := 1
  accessRequestId := 1

/-- Store holding a user and a request addressed with mixed-case wallets. -/
def C9State : MemStorage where
  users := [{ id := 1, username := "u", walletAddress := some "0xAbC",
              isCreator := false }]
  courses := [{ id := 1, creatorId := 1, title := "t", isPublished := true }]
  ownerships := [{ id := 1, courseId := 1, ownerId := 1, tokenId := "1",
                   mintedAt := 0, transactionHash := none }]
  temporaryAccesses := [{ id := 1, ownershipId := 1,
                          recipientAddress := "0xDeF", expiresAt := 100,
                          isActive := true, createdAt := 0 }]
  accessRequests := [{ id := 1, courseId := 1, requesterAddress := "0xABC",
                       ownerAddress := "0xDEF", requestMessage := none,
                       requestDuration := 7, status := "pending",
                       createdAt := 0, updatedAt := 0 }]
  userId := 2
  ownershipId := 2
  temporaryAccessId := 2
  accessRequestId := 2

/-- Store with one already-inactive grant, for the revoke frame claim. -/
def C10State : MemStorage where
  users := []
  courses := []
  ownerships := [{ id := 1, courseId := 1, ownerId := 1, tokenId := "1",
                   mintedAt := 0, transactionHash := none }]
  temporaryAccesses := [{ id := 1, ownershipId := 1,
                          recipientAddress := "0xa", expiresAt := 100,
                          isActive := false, createdAt := 0 }]
  accessRequests := []
  userId := 1
  ownershipId := 2
  temporaryAccessId := 2
  accessRequestId := 1

/-! ## Helper lemmas -/

theorem MemStorage.getUserByWalletAddress_congr (st : MemStorage) {w1 w2 : String}
    (h : lowercase w1 = lowercase w2) :
    st.getUserByWalletAddress w1 = st.getUserByWalletAddress w2 := by
  unfold MemStorage.getUserByWalletAddress
  rw [h]

theorem MemStorage.getUserByWalletAddress_lowercase (st : MemStorage) (w : String) :
    st.getUserByWalletAddress (lowercase w) = st.getUserByWalletAddress w :=
  st.getUserByWalletAddress_congr (lowercase_idem w)

theorem MemStorage.getActiveTemporaryAccess_congr (st : MemStorage) (oid : Nat)
    {w1 w2 : String} (now : Int) (h : lowercase w1 = lowercase w2) :
    st.getActiveTemporaryAccess oid w1 now = st.getActiveTemporaryAccess oid w2 now := by
  unfold MemStorage.getActiveTemporaryAccess
  rw [h]

theorem MemStorage.getActiveTemporaryAccess_lowercase (st : MemStorage) (oid : Nat)
    (w : String) (now : Int) :
    st.getActiveTemporaryAccess oid (lowercase w) now = st.getActiveTemporaryAccess oid w now :=
  st.getActiveTemporaryAccess_congr oid now (lowercase_idem w)

theorem MemStorage.checkTemporaryAccess_congr (st : MemStorage) (c : Nat)
    {w1 w2 : String} (now : Int) (h : lowercase w1 = lowercase w2) :
    st.checkTemporaryAccess c w1 now = st.checkTemporaryAccess c w2 now := by
  unfold MemStorage.checkTemporaryAccess
  rw [h]

theorem MemStorage.checkTemporaryAccess_lowercase (st : MemStorage) (c : Nat)
    (w : String) (now : Int) :
    st.checkTemporaryAccess c (lowercase w) now = st.checkTemporaryAccess c w now :=
  st.checkTemporaryAccess_congr c now (lowercase_idem w)

theorem MemStorage.checkTemporaryAccess_iff (st : MemStorage) (c : Nat) (w : String)
    (now : Int) :
    st.checkTemporaryAccess c w now = true ↔
      ∃ a ∈ st.temporaryAccesses,
        matchesCourseWallet st c w a ∧ isEffectivelyActive a now = true := by
  unfold MemStorage.checkTemporaryAccess matchesCourseWallet isEffectivelyActive
  simp only [List.any_eq_true, List.mem_filter, beq_iff_eq, Bool.and_eq_true,
    decide_eq_true_eq]
  constructor
  · rintro ⟨o, ⟨ho, hoc⟩, a, ha, ⟨⟨hid, hrec⟩, hact⟩, hexp⟩
    exact ⟨a, ha, ⟨⟨o, ho, hoc, hid⟩, hrec⟩, hact, hexp⟩
  · rintro ⟨a, ha, ⟨⟨o, ho, hoc, hid⟩, hrec⟩, hact, hexp⟩
    exact ⟨o, ⟨ho, hoc⟩, a, ha, ⟨⟨hid, hrec⟩, hact⟩, hexp⟩

theorem checkAccess_of_no_ownership (st : MemStorage) (c : Nat) (w : String) (now : Int)
    (hc : c ≠ 0) (hw : w ≠ "")
    (hown : ∀ u, st.getUserByWalletAddress w = some u →
      st.getNftOwnershipByCourseAndOwner c u.id = none) :
    checkAccess st c w now =
      if st.checkTemporaryAccess c w now then .ok true (some .temporary)
      else .ok false none := by
  unfold checkAccess
  rw [if_neg (by simp [hc, hw])]
  dsimp only
  rw [st.getUserByWalletAddress_lowercase w, st.checkTemporaryAccess_lowercase]
  cases hu : st.getUserByWalletAddress w with
  | none => rfl
  | some u =>
    dsimp only
    rw [hown u hu]

theorem checkAccess_owner (st : MemStorage) (c : Nat) (w : String) (now : Int)
    (u : User) (o : NftOwnership) (hc : c ≠ 0) (hw : w ≠ "")
    (hu : st.getUserByWalletAddress w = some u)
    (ho : st.getNftOwnershipByCourseAndOwner c u.id = some o) :
    checkAccess st c w now = .ok true (some .owner) := by
  unfold checkAccess
  rw [if_neg (by simp [hc, hw])]
  dsimp only
  rw [st.getUserByWalletAddress_lowercase w, hu]
  dsimp only
  rw [ho]

theorem MemStorage.deactivateTemporaryAccess_frame (st : MemStorage) (id : Nat) :
    ((st.deactivateTemporaryAccess id).2).users = st.users ∧
    ((st.deactivateTemporaryAccess id).2).courses = st.courses ∧
    ((st.deactivateTemporaryAccess id).2).ownerships = st.ownerships ∧
    ((st.deactivateTemporaryAccess id).2).accessRequests = st.accessRequests := by
  unfold MemStorage.deactivateTemporaryAccess
  split <;> simp

theorem MemStorage.createTemporaryAccess_frame (st : MemStorage)
    (insertAccess : InsertTemporaryAccess) (now : Int) :
    ((st.createTemporaryAccess insertAccess now).2).users = st.users ∧
    ((st.createTemporaryAccess insertAccess now).2).courses = st.courses ∧
    ((st.createTemporaryAccess insertAccess now).2).ownerships = st.ownerships ∧
    ((st.createTemporaryAccess insertAccess now).2).accessRequests = st.accessRequests := by
  unfold MemStorage.createTemporaryAccess
  simp

theorem find?_map_replace {α : Type} (p : α → Bool) (upd : α) (hupd : p upd = true)
    (l : List α) (h : (l.find? p).isSome) :
    (l.map fun x => if p x then upd else x).find? p = some upd := by
  induction l with
  | nil => simp at h
  | cons x xs ih =>
    by_cases hx : p x = true
    · simp only [List.map_cons, if_pos hx]
      exact List.find?_cons_of_pos _ hupd
    · rw [List.find?_cons_of_neg _ hx] at h
      simp only [List.map_cons, if_neg hx]
      rw [List.find?_cons_of_neg _ hx]
      exact ih h

theorem setRequestStatus_accessRequests (st : MemStorage) (id : Nat) (s : String)
    (now : Int) (r : AccessRequest) (h : st.getAccessRequestById id = some r)
    (hs : s ∈ ["pending", "approved", "rejected"]) :
    ((setRequestStatus st id s now).2).accessRequests =
      st.accessRequests.map fun x =>
        if x.id == id then { r with status := s, updatedAt := now } else x := by
  unfold MemStorage.getAccessRequestById at h
  have hcontains : (["pending", "approved", "rejected"].contains s) = true := by
    simpa [List.contains] using List.elem_iff.mpr hs
  unfold setRequestStatus
  rw [hcontains]
  rw [if_neg (by simp)]
  unfold MemStorage.getAccessRequestById
  rw [h]
  dsimp only
  unfold MemStorage.updateAccessRequestStatus
  rw [h]
  dsimp only
  split
  · split
    · rfl
    · split
      · rfl
      · simp [MemStorage.createTemporaryAccess]
  · rfl

theorem setRequestStatus_overwrites (st : MemStorage) (id : Nat) (s : String)
    (now : Int) (r : AccessRequest) (h : st.getAccessRequestById id = some r)
    (hs : s ∈ ["pending", "approved", "rejected"]) :
    ((setRequestStatus st id s now).2).getAccessRequestById id =
      some { r with status := s, updatedAt := now } := by
  have h' : List.find? (fun x => x.id == id) st.accessRequests = some r := h
  have hr := List.find?_some h'
  unfold MemStorage.getAccessRequestById
  rw [setRequestStatus_accessRequests st id s now r h hs]
  exact find?_map_replace _ _ (by simpa using hr) _ (by simp [h'])

theorem setRequestStatus_not_total_failure (st : MemStorage) (id : Nat) (s : String)
    (now : Int) (r : AccessRequest) (h : st.getAccessRequestById id = some r)
    (hs : s ∈ ["pending", "approved", "rejected"]) :
    (setRequestStatus st id s now).1 ≠ .invalidStatusValue ∧
    (setRequestStatus st id s now).1 ≠ .requestNotFound := by
  have h' : List.find? (fun x => x.id == id) st.accessRequests = some r := h
  have hcontains : (["pending", "approved", "rejected"].contains s) = true := by
    simpa [List.contains] using List.elem_iff.mpr hs
  unfold setRequestStatus
  rw [hcontains]
  rw [if_neg (by simp)]
  unfold MemStorage.getAccessRequestById
  rw [h']
  dsimp only
  split
  · split
    · simp
    · split
      · simp
      · simp
  · simp

theorem MemStorage.checkTemporaryAccess_eq_false_iff (st : MemStorage) (c : Nat)
    (w : String) (now : Int) :
    st.checkTemporaryAccess c w now = false ↔
      ∀ a ∈ st.temporaryAccesses, matchesCourseWallet st c w a →
        isEffectivelyActive a now = false := by
  constructor
  · intro h a ha hm
    by_contra hne
    have hl : isEffectivelyActive a now = true := by
      cases hb : isEffectivelyActive a now
      · exact absurd hb hne
      · rfl
    have := (st.checkTemporaryAccess_iff c w now).mpr ⟨a, ha, hm, hl⟩
    rw [h] at this
    exact Bool.false_ne_true this
  · intro h
    cases hb : st.checkTemporaryAccess c w now
    · rfl
    · obtain ⟨a, ha, hm, hl⟩ := (st.checkTemporaryAccess_iff c w now).mp hb
      rw [h a ha hm] at hl
      exact absurd hl Bool.false_ne_true

theorem matchesCourseWallet_congr {st st' : MemStorage}
    (h : st'.ownerships = st.ownerships) (c : Nat) (w : String)
    (a : TemporaryAccess) :
    matchesCourseWallet st' c w a ↔ matchesCourseWallet st c w a := by
  unfold matchesCourseWallet
  rw [h]

theorem MemStorage.getActiveTemporaryAccess_eq_none_iff (st : MemStorage)
    (oid : Nat) (w : String) (now : Int) :
    st.getActiveTemporaryAccess oid w now = none ↔
      ∀ a ∈ st.temporaryAccesses,
        ¬(a.ownershipId = oid ∧ lowercase a.recipientAddress = lowercase w ∧
          a.isActive = true ∧ a.expiresAt > now) := by
  unfold MemStorage.getActiveTemporaryAccess
  rw [List.find?_eq_none]
  constructor
  · intro h a ha hc
    apply h a ha
    simp only [Bool.and_eq_true, beq_iff_eq, decide_eq_true_eq]
    exact ⟨⟨⟨hc.1, hc.2.1⟩, hc.2.2.1⟩, hc.2.2.2⟩
  · intro h a ha hp
    apply h a ha
    simp only [Bool.and_eq_true, beq_iff_eq, decide_eq_true_eq] at hp
    exact ⟨hp.1.1.1, hp.1.1.2, hp.1.2, hp.2⟩

/-! ## Claim theorems -/

/-- C7: effective liveness is exactly `isActive && expiresAt > now` for all
grants and clock values; at the boundary `expiresAt = now` the grant is not
live; and both `getActiveTemporaryAccess` and `checkTemporaryAccess` test
exactly this predicate (together with the key match). -/
theorem C7_effective_liveness :
    (∀ (grant : TemporaryAccess) (now : Int),
        isEffectivelyActive grant now =
          (grant.isActive && decide (grant.expiresAt > now)))
    ∧ (∀ (grant : TemporaryAccess) (now : Int),
        grant.expiresAt = now → isEffectivelyActive grant now = false)
    ∧ (∀ (st : MemStorage) (ownershipId : Nat) (recipientAddress : String)
          (now : Int),
        st.getActiveTemporaryAccess ownershipId recipientAddress now =
          st.temporaryAccesses.find? fun access =>
            access.ownershipId == ownershipId &&
            lowercase access.recipientAddress == lowercase recipientAddress &&
            isEffectivelyActive access now)
    ∧ (∀ (st : MemStorage) (courseId : Nat) (walletAddress : String)
          (now : Int),
        st.checkTemporaryAccess courseId walletAddress now =
          ((st.ownerships.filter fun o => o.courseId == courseId).any
            fun ownership =>
              st.temporaryAccesses.any fun access =>
                access.ownershipId == ownership.id &&
                lowercase access.recipientAddress == lowercase walletAddress &&
                isEffectivelyActive access now)) := by
  refine ⟨fun _ _ => rfl, ?_, ?_, ?_⟩
  · intro grant now h
    unfold isEffectivelyActive
    rw [h]
    simp
  · intro st oid r now
    unfold MemStorage.getActiveTemporaryAccess
    dsimp only
    congr 1
    funext access
    unfold isEffectivelyActive
    cases access.isActive <;> simp
  · intro st c w now
    unfold MemStorage.checkTemporaryAccess
    dsimp only
    congr 1
    funext ownership
    congr 1
    funext access
    unfold isEffectivelyActive
    cases access.isActive <;> simp

/-- Witness for C7 at the boundary: a grant expiring exactly now is dead. -/
theorem C7_witness :
    isEffectivelyActive
      { id := 1, ownershipId := 1, recipientAddress := "0xabc",
        expiresAt := 5, isActive := true, createdAt := 0 } 5 = false :=
  C7_effective_liveness.2.1 _ 5 rfl

/-- C3 fails on the code: submitting a request with `durationDays = 0` does
not fail with `InvalidDuration`; the request is created (status pending,
duration 0). The route performs no duration validation. -/
theorem C3_counterexample :
    ((submitAccessRequest emptyStore 1 "0xRequester" "0xOwner" none 0 0).2).accessRequests =
      [{ id := 1, courseId := 1, requesterAddress := "0xrequester",
         ownerAddress := "0xowner", requestMessage := none,
         requestDuration := 0, status := "pending", createdAt := 0,
         updatedAt := 0 }] := by decide

/-- C3 amended: the submit operation validates nothing about the duration;
for every `durationDays` (0 and 91 included) it appends a new request with
that duration and status pending. In particular durations 1 and 90 also
succeed. -/
theorem C3_submit_accepts_any_duration (st : MemStorage) (courseId : Nat)
    (requesterAddress ownerAddress : String) (requestMessage : Option String)
    (requestDuration now : Int) :
    ((submitAccessRequest st courseId requesterAddress ownerAddress
        requestMessage requestDuration now).2).accessRequests =
      st.accessRequests ++
        [(submitAccessRequest st courseId requesterAddress ownerAddress
            requestMessage requestDuration now).1]
    ∧ (submitAccessRequest st courseId requesterAddress ownerAddress
        requestMessage requestDuration now).1.requestDuration = requestDuration
    ∧ (submitAccessRequest st courseId requesterAddress ownerAddress
        requestMessage requestDuration now).1.status = "pending" :=
  ⟨rfl, rfl, rfl⟩

/-- C2 fails on the code: the status-update operation has no transition
guard. A request already in the terminal state `approved` is moved to
`rejected` (and even back to `pending`) without any `InvalidTransition`
error, and the stored request changes. -/
theorem C2_counterexample :
    (setRequestStatus C2State 1 "rejected" 5).1 =
      .statusUpdated { id := 1, courseId := 1, requesterAddress := "0xr",
                       ownerAddress := "0xo", requestMessage := none,
                       requestDuration := 7, status := "rejected",
                       createdAt := 0, updatedAt := 5 }
    ∧ ((setRequestStatus C2State 1 "rejected" 5).2).getAccessRequestById 1 =
        some { id := 1, courseId := 1, requesterAddress := "0xr",
               ownerAddress := "0xo", requestMessage := none,
               requestDuration := 7, status := "rejected",
               createdAt := 0, updatedAt := 5 }
    ∧ (setRequestStatus C2State 1 "pending" 5).1 =
        .statusUpdated { id := 1, courseId := 1, requesterAddress := "0xr",
                         ownerAddress := "0xo", requestMessage := none,
                         requestDuration := 7, status := "pending",
                         createdAt := 0, updatedAt := 5 } := by decide

/-- C2 amended: the status-update operation rejects only statuses outside
{pending, approved, rejected} and unknown request ids; for every existing
request it overwrites the status regardless of the current status —
including transitions out of the terminal states and back to pending. -/
theorem C2_no_transition_guard (st : MemStorage) (id : Nat) (s : String)
    (now : Int) (r : AccessRequest) (h : st.getAccessRequestById id = some r)
    (hs : s ∈ ["pending", "approved", "rejected"]) :
    ((setRequestStatus st id s now).2).getAccessRequestById id =
      some { r with status := s, updatedAt := now }
    ∧ (setRequestStatus st id s now).1 ≠ .invalidStatusValue
    ∧ (setRequestStatus st id s now).1 ≠ .requestNotFound :=
  ⟨setRequestStatus_overwrites st id s now r h hs,
   (setRequestStatus_not_total_failure st id s now r h hs).1,
   (setRequestStatus_not_total_failure st id s now r h hs).2⟩

/-- Witness for C2 amended: transitioning the approved request of `C2State`
to `rejected` overwrites the status. -/
theorem C2_witness :
    ((setRequestStatus C2State 1 "rejected" 5).2).getAccessRequestById 1 =
      some { id := 1, courseId := 1, requesterAddress := "0xr",
             ownerAddress := "0xo", requestMessage := none,
             requestDuration := 7, status := "rejected",
             createdAt := 0, updatedAt := 5 }
    ∧ (setRequestStatus C2State 1 "rejected" 5).1 ≠ .invalidStatusValue
    ∧ (setRequestStatus C2State 1 "rejected" 5).1 ≠ .requestNotFound :=
  C2_no_transition_guard C2State 1 "rejected" 5
    { id := 1, courseId := 1, requesterAddress := "0xr",
      ownerAddress := "0xo", requestMessage := none, requestDuration := 7,
      status := "approved", createdAt := 0, updatedAt := 0 }
    (by decide) (by decide)

/-- C4: when the grant sub-step of an approval fails (owner unresolved or
ownership missing), the status change to `approved` is still persisted, and
the result is the sub-step's own failure, distinct from the total failures
and from the successful grant outcome. -/
theorem C4_partial_failure (st : MemStorage) (id : Nat) (now : Int)
    (r : AccessRequest) (h : st.getAccessRequestById id = some r)
    (hfail : (setRequestStatus st id "approved" now).1 = .ownerNotFound ∨
             (setRequestStatus st id "approved" now).1 = .ownershipMissing) :
    ((setRequestStatus st id "approved" now).2).getAccessRequestById id =
      some { r with status := "approved", updatedAt := now }
    ∧ (setRequestStatus st id "approved" now).1 ≠ .requestNotFound
    ∧ (setRequestStatus st id "approved" now).1 ≠ .invalidStatusValue
    ∧ ∀ req e, (setRequestStatus st id "approved" now).1 ≠
        .approvedAccessGranted req e := by
  refine ⟨setRequestStatus_overwrites st id "approved" now r h (by decide),
    ?_, ?_, ?_⟩
  · rcases hfail with hf | hf <;> rw [hf] <;> exact fun hc => SetStatusResult.noConfusion hc
  · rcases hfail with hf | hf <;> rw [hf] <;> exact fun hc => SetStatusResult.noConfusion hc
  · intro req e
    rcases hfail with hf | hf <;> rw [hf] <;> exact fun hc => SetStatusResult.noConfusion hc

/-- Witness for C4: approving the request of `C4State` (whose owner address
matches no user) reports `ownerNotFound` while the stored request is
recorded as approved. -/
theorem C4_witness :
    ((setRequestStatus C4State 1 "approved" 9).2).getAccessRequestById 1 =
      some { id := 1, courseId := 1, requesterAddress := "0xr",
             ownerAddress := "0xghost", requestMessage := none,
             requestDuration := 7, status := "approved",
             createdAt := 0, updatedAt := 9 }
    ∧ (setRequestStatus C4State 1 "approved" 9).1 ≠ .requestNotFound
    ∧ (setRequestStatus C4State 1 "approved" 9).1 ≠ .invalidStatusValue
    ∧ ∀ req e, (setRequestStatus C4State 1 "approved" 9).1 ≠
        .approvedAccessGranted req e :=
  C4_partial_failure C4State 1 9
    { id := 1, courseId := 1, requesterAddress := "0xr",
      ownerAddress := "0xghost", requestMessage := none,
      requestDuration := 7, status := "pending", createdAt := 0,
      updatedAt := 0 }
    (by decide) (Or.inl (by decide))

/-- C6: for a wallet resolving to a user who holds an ownership for the
course, `checkAccess` answers owner — whatever the delegated-access table
contains (active, revoked or expired grants alike): the ownership check
runs first and short-circuits the delegation check. -/
theorem C6_ownership_dominates (st : MemStorage) (courseId : Nat)
    (walletAddress : String) (now : Int) (user : User)
    (ownership : NftOwnership) (hc : courseId ≠ 0) (hw : walletAddress ≠ "")
    (hu : st.getUserByWalletAddress walletAddress = some user)
    (ho : st.getNftOwnershipByCourseAndOwner courseId user.id = some ownership) :
    ∀ tas : List TemporaryAccess,
      checkAccess { st with temporaryAccesses := tas } courseId walletAddress now =
        .ok true (some .owner) := by
  intro tas
  exact checkAccess_owner _ _ _ _ user ownership hc hw hu ho

/-- Witness for C6: the owner wallet of `C6State`, queried in a different
letter case and with an arbitrary grant list, still gets owner access. -/
theorem C6_witness :
    checkAccess
      { C6State with temporaryAccesses :=
          [{ id := 1, ownershipId := 1, recipientAddress := "0xowner",
             expiresAt := 50, isActive := false, createdAt := 0 }] }
      1 "0xOWNER" 0 = .ok true (some .owner) :=
  C6_ownership_dominates C6State 1 "0xOWNER" 0
    { id := 1, username := "owner", walletAddress := some "0xowner",
      isCreator := true }
    { id := 1, courseId := 1, ownerId := 1, tokenId := "1", mintedAt := 0,
      transactionHash := none }
    (by decide) (by decide) (by decide) (by decide) _

/-- C10: revoking an existing grant returns true (also when it is already
inactive); it flips only that grant's `isActive` to false, keeping its other
fields and every other grant, and touches no other part of the store;
revoking an unknown id returns the not-found result and leaves the store
unchanged. -/
theorem C10_revoke_frame (st : MemStorage) (id : Nat) :
    (∀ a, st.temporaryAccesses.find? (fun x => x.id == id) = some a →
      (st.deactivateTemporaryAccess id).1 = true
      ∧ (∀ b ∈ st.temporaryAccesses, b.id ≠ id →
          b ∈ ((st.deactivateTemporaryAccess id).2).temporaryAccesses)
      ∧ (∀ b ∈ st.temporaryAccesses, b.id = id →
          { b with isActive := false } ∈
            ((st.deactivateTemporaryAccess id).2).temporaryAccesses)
      ∧ (∀ b ∈ ((st.deactivateTemporaryAccess id).2).temporaryAccesses,
          b ∈ st.temporaryAccesses ∨
            ∃ c ∈ st.temporaryAccesses, c.id = id ∧
              b = { c with isActive := false })
      ∧ ((st.deactivateTemporaryAccess id).2).temporaryAccesses.length =
          st.temporaryAccesses.length
      ∧ ((st.deactivateTemporaryAccess id).2).users = st.users
      ∧ ((st.deactivateTemporaryAccess id).2).courses = st.courses
      ∧ ((st.deactivateTemporaryAccess id).2).ownerships = st.ownerships
      ∧ ((st.deactivateTemporaryAccess id).2).accessRequests = st.accessRequests)
    ∧ (st.temporaryAccesses.find? (fun x => x.id == id) = none →
        st.deactivateTemporaryAccess id = (false, st)) := by
  constructor
  · intro a ha
    unfold MemStorage.deactivateTemporaryAccess
    rw [ha]
    refine ⟨rfl, ?_, ?_, ?_, by simp, rfl, rfl, rfl, rfl⟩
    · intro b hb hbid
      dsimp only
      exact List.mem_map.mpr ⟨b, hb, by simp [hbid]⟩
    · intro b hb hbid
      dsimp only
      exact List.mem_map.mpr ⟨b, hb, by simp [hbid]⟩
    · intro b hb
      dsimp only at hb
      obtain ⟨c, hc, hcb⟩ := List.mem_map.mp hb
      by_cases hcid : c.id = id
      · right
        refine ⟨c, hc, hcid, ?_⟩
        rw [← hcb]
        simp [hcid]
      · left
        rw [← hcb]
        simpa [hcid] using hc
  · intro hnone
    unfold MemStorage.deactivateTemporaryAccess
    rw [hnone]

/-- Witness for C10: revoking the already-inactive grant of `C10State`
still returns true, and revoking the unknown id 2 returns not-found with
the store unchanged. -/
theorem C10_witness :
    (C10State.deactivateTemporaryAccess 1).1 = true
    ∧ C10State.deactivateTemporaryAccess 2 = (false, C10State) :=
  ⟨((C10_revoke_frame C10State 1).1
      { id := 1, ownershipId := 1, recipientAddress := "0xa",
        expiresAt := 100, isActive := false, createdAt := 0 }
      (by decide)).1,
   (C10_revoke_frame C10State 2).2 (by decide)⟩

theorem MemStorage.mem_deactivate_cases (st : MemStorage) (id : Nat)
    {b : TemporaryAccess}
    (hb : b ∈ ((st.deactivateTemporaryAccess id).2).temporaryAccesses) :
    b.isActive = false ∨ (b ∈ st.temporaryAccesses ∧ b.id ≠ id) := by
  unfold MemStorage.deactivateTemporaryAccess at hb
  split at hb
  · rename_i hnone
    right
    refine ⟨hb, ?_⟩
    have := List.find?_eq_none.mp hnone b hb
    simpa using this
  · dsimp only at hb
    obtain ⟨c, hc, hcb⟩ := List.mem_map.mp hb
    by_cases hcid : c.id = id
    · left
      rw [← hcb]
      simp [hcid]
    · right
      rw [← hcb, if_neg (by simp [hcid])]
      exact ⟨hc, hcid⟩

/-- C5: for a wallet holding only delegated access to a course (it resolves
to no owning user), an effectively-active grant yields temporary access;
after revoking the only live grant, or once the clock reaches every
matching grant's expiry, the same call reports no access. -/
theorem C5_delegated_lifecycle (st : MemStorage) (courseId : Nat)
    (walletAddress : String) (now later : Int) (grantId : Nat)
    (hc : courseId ≠ 0) (hw : walletAddress ≠ "")
    (hown : ∀ u, st.getUserByWalletAddress walletAddress = some u →
      st.getNftOwnershipByCourseAndOwner courseId u.id = none) :
    (st.checkTemporaryAccess courseId walletAddress now = true →
      checkAccess st courseId walletAddress now = .ok true (some .temporary))
    ∧ ((∀ a ∈ st.temporaryAccesses,
          matchesCourseWallet st courseId walletAddress a →
          isEffectivelyActive a now = true → a.id = grantId) →
        checkAccess ((st.deactivateTemporaryAccess grantId).2) courseId
          walletAddress now = .ok false none)
    ∧ ((∀ a ∈ st.temporaryAccesses,
          matchesCourseWallet st courseId walletAddress a →
          a.expiresAt ≤ later) →
        checkAccess st courseId walletAddress later = .ok false none) := by
  refine ⟨?_, ?_, ?_⟩
  · intro h
    rw [checkAccess_of_no_ownership st courseId walletAddress now hc hw hown,
      if_pos h]
  · intro honly
    obtain ⟨husers, hcourses, howns, hreqs⟩ :=
      st.deactivateTemporaryAccess_frame grantId
    have hown' : ∀ u,
        ((st.deactivateTemporaryAccess grantId).2).getUserByWalletAddress
          walletAddress = some u →
        ((st.deactivateTemporaryAccess grantId).2).getNftOwnershipByCourseAndOwner
          courseId u.id = none := by
      intro u hu
      unfold MemStorage.getUserByWalletAddress at hu
      rw [husers] at hu
      unfold MemStorage.getNftOwnershipByCourseAndOwner
      rw [howns]
      exact hown u hu
    rw [checkAccess_of_no_ownership _ courseId walletAddress now hc hw hown']
    have hfalse : ((st.deactivateTemporaryAccess grantId).2).checkTemporaryAccess
        courseId walletAddress now = false := by
      rw [MemStorage.checkTemporaryAccess_eq_false_iff]
      intro b hb hm
      rcases st.mem_deactivate_cases grantId hb with hinact | ⟨hbmem, hbid⟩
      · unfold isEffectivelyActive
        rw [hinact]
        rfl
      · have hm' : matchesCourseWallet st courseId walletAddress b :=
          (matchesCourseWallet_congr howns courseId walletAddress b).mp hm
        cases hl : isEffectivelyActive b now
        · rfl
        · exact absurd (honly b hbmem hm' hl) hbid
    rw [hfalse]
    simp
  · intro hexp
    rw [checkAccess_of_no_ownership st courseId walletAddress later hc hw hown]
    have hfalse : st.checkTemporaryAccess courseId walletAddress later = false := by
      rw [MemStorage.checkTemporaryAccess_eq_false_iff]
      intro b hb hm
      unfold isEffectivelyActive
      have hne : ¬(b.expiresAt > later) := not_lt.mpr (hexp b hb hm)
      simp [hne]
    rw [hfalse]
    simp

/-- Witness for C5: in `C5State`, wallet `0xTEMP` has temporary access at
time 0, none after revoking grant 1, and none at time 100 (its expiry). -/
theorem C5_witness :
    checkAccess C5State 1 "0xTEMP" 0 = .ok true (some .temporary)
    ∧ checkAccess ((C5State.deactivateTemporaryAccess 1).2) 1 "0xTEMP" 0 =
        .ok false none
    ∧ checkAccess C5State 1 "0xTEMP" 100 = .ok false none := by
  obtain ⟨h1, h2, h3⟩ := C5_delegated_lifecycle C5State 1 "0xTEMP" 0 100 1
    (by decide) (by decide) (fun u hu => Option.noConfusion hu)
  exact ⟨h1 (by decide), h2 (by decide), h3 (by decide)⟩

/-- C9: wallet strings with the same lowercasing are interchangeable in the
user lookup, the access check, grant creation, the duplicate-active-grant
uniqueness lookup, the course-scoped delegation check and both request
listings. -/
theorem C9_case_insensitive (st : MemStorage) (courseId ownershipId : Nat)
    (expiresAt now : Int) (w1 w2 : String) (h : lowercase w1 = lowercase w2) :
    st.getUserByWalletAddress w1 = st.getUserByWalletAddress w2
    ∧ checkAccess st courseId w1 now = checkAccess st courseId w2 now
    ∧ shareAccess st ownershipId w1 expiresAt now =
        shareAccess st ownershipId w2 expiresAt now
    ∧ st.getActiveTemporaryAccess ownershipId w1 now =
        st.getActiveTemporaryAccess ownershipId w2 now
    ∧ st.checkTemporaryAccess courseId w1 now =
        st.checkTemporaryAccess courseId w2 now
    ∧ st.getAccessRequestsByRequester w1 = st.getAccessRequestsByRequester w2
    ∧ st.getAccessRequestsByOwner w1 = st.getAccessRequestsByOwner w2 := by
  have hemp : w1 = "" ↔ w2 = "" := by
    rw [← lowercase_eq_empty_iff w1, ← lowercase_eq_empty_iff w2, h]
  have hguard : (w1 == "") = (w2 == "") := by
    by_cases h1 : w1 = ""
    · simp [h1, hemp.mp h1]
    · have h2 : ¬ w2 = "" := fun hx => h1 (hemp.mpr hx)
      simp [h1, h2]
  refine ⟨st.getUserByWalletAddress_congr h, ?_, ?_,
    st.getActiveTemporaryAccess_congr ownershipId now h,
    st.checkTemporaryAccess_congr courseId now h, ?_, ?_⟩
  · unfold checkAccess
    rw [hguard, h]
  · unfold shareAccess
    rw [hguard, h]
  · unfold MemStorage.getAccessRequestsByRequester
    rw [h]
  · unfold MemStorage.getAccessRequestsByOwner
    rw [h]

/-- Witness for C9: `0xABC` and `0xabc` behave identically on `C9State`. -/
theorem C9_witness :
    C9State.getUserByWalletAddress "0xABC" = C9State.getUserByWalletAddress "0xabc"
    ∧ checkAccess C9State 1 "0xABC" 0 = checkAccess C9State 1 "0xabc" 0
    ∧ shareAccess C9State 1 "0xABC" 50 0 = shareAccess C9State 1 "0xabc" 50 0
    ∧ C9State.getActiveTemporaryAccess 1 "0xABC" 0 =
        C9State.getActiveTemporaryAccess 1 "0xabc" 0
    ∧ C9State.checkTemporaryAccess 1 "0xABC" 0 =
        C9State.checkTemporaryAccess 1 "0xabc" 0
    ∧ C9State.getAccessRequestsByRequester "0xABC" =
        C9State.getAccessRequestsByRequester "0xabc"
    ∧ C9State.getAccessRequestsByOwner "0xABC" =
        C9State.getAccessRequestsByOwner "0xabc" :=
  C9_case_insensitive C9State 1 1 50 0 "0xABC" "0xabc" (by decide)

theorem MemStorage.getActiveTemporaryAccess_isSome_iff (st : MemStorage)
    (oid : Nat) (w : String) (now : Int) :
    (st.getActiveTemporaryAccess oid w now).isSome ↔
      ∃ a ∈ st.temporaryAccesses,
        a.ownershipId = oid ∧ lowercase a.recipientAddress = lowercase w ∧
        a.isActive = true ∧ a.expiresAt > now := by
  unfold MemStorage.getActiveTemporaryAccess
  rw [List.find?_isSome]
  constructor
  · rintro ⟨a, ha, hp⟩
    simp only [Bool.and_eq_true, beq_iff_eq, decide_eq_true_eq] at hp
    exact ⟨a, ha, hp.1.1.1, hp.1.1.2, hp.1.2, hp.2⟩
  · rintro ⟨a, ha, h1, h2, h3, h4⟩
    refine ⟨a, ha, ?_⟩
    simp only [Bool.and_eq_true, beq_iff_eq, decide_eq_true_eq]
    exact ⟨⟨⟨h1, h2⟩, h3⟩, h4⟩

theorem shareAccess_created (st : MemStorage) (oid : Nat) (r : String)
    (e now : Int) (hr : r ≠ "") (o : NftOwnership)
    (ho : st.getNftOwnership oid = some o)
    (hn : st.getActiveTemporaryAccess oid r now = none) :
    shareAccess st oid r e now =
      (.created { id := st.temporaryAccessId, ownershipId := oid,
                  recipientAddress := lowercase r, expiresAt := e,
                  isActive := true, createdAt := now },
       { st with
           temporaryAccesses := st.temporaryAccesses ++
             [{ id := st.temporaryAccessId, ownershipId := oid,
                recipientAddress := lowercase r, expiresAt := e,
                isActive := true, createdAt := now }],
           temporaryAccessId := st.temporaryAccessId + 1 }) := by
  unfold shareAccess
  rw [if_neg (by simp [hr])]
  dsimp only
  rw [ho]
  dsimp only
  rw [st.getActiveTemporaryAccess_lowercase, hn]
  rfl

theorem shareAccess_duplicate (st : MemStorage) (oid : Nat) (r : String)
    (e now : Int) (hr : r ≠ "") (o : NftOwnership)
    (ho : st.getNftOwnership oid = some o)
    (hg : (st.getActiveTemporaryAccess oid r now).isSome) :
    shareAccess st oid r e now = (.duplicateActiveGrant, st) := by
  unfold shareAccess
  rw [if_neg (by simp [hr])]
  dsimp only
  rw [ho]
  dsimp only
  obtain ⟨g', hg'⟩ := Option.isSome_iff_exists.mp hg
  rw [st.getActiveTemporaryAccess_lowercase, hg']

/-- C1 fails on the code: in `C1State` one live grant exists for
(ownership 1, `0xrecipient`); approving the pending request of the same
recipient succeeds and creates a second grant, so the store then holds two
active, unexpired grants for the same pair — the approval path performs no
duplicate check. -/
theorem C1_counterexample :
    activeGrantCount C1State 1 "0xrecipient" 0 = 1
    ∧ (setRequestStatus C1State 1 "approved" 0).1 =
        .approvedAccessGranted
          { id := 1, courseId := 1, requesterAddress := "0xrecipient",
            ownerAddress := "0xowner", requestMessage := none,
            requestDuration := 7, status := "approved", createdAt := 0,
            updatedAt := 0 } 604800000
    ∧ activeGrantCount ((setRequestStatus C1State 1 "approved" 0).2) 1
        "0xrecipient" 0 = 2 := by decide

theorem count_append_le {α : Type} (l : List α) (p : α → Bool) (g : α)
    (h0 : p g = true → ∀ a ∈ l, ¬ p a = true)
    (h1 : (l.filter p).length ≤ 1) :
    ((l ++ [g]).filter p).length ≤ 1 := by
  rw [List.filter_append, List.length_append]
  by_cases hpg : p g = true
  · have hz : l.filter p = [] :=
      List.filter_eq_nil_iff.mpr (fun a ha => h0 hpg a ha)
    have hle : (List.filter p [g]).length ≤ 1 := by
      simpa using List.length_filter_le p [g]
    rw [hz]
    simpa using hle
  · have hz2 : List.filter p [g] = [] := by
      simp [List.filter_cons, hpg]
    rw [hz2]
    simpa using h1

/-- C1 amended: the direct share operation preserves the at-most-one-live-
grant-per-(ownershipId, recipient) invariant (it rejects a duplicate while
one is live); the request-approval composite operation does not, as it
creates its grant without the duplicate check. -/
theorem C1_share_preserves_uniqueness (st : MemStorage) (ownershipId : Nat)
    (recipientAddress : String) (expiresAt now : Int)
    (hInv : DelegatedAccessInvariant st now) :
    DelegatedAccessInvariant
      ((shareAccess st ownershipId recipientAddress expiresAt now).2) now := by
  unfold shareAccess
  split
  · exact hInv
  · split
    · exact hInv
    · dsimp only
      split
      · exact hInv
      · rename_i hnone
        intro oid' r'
        have hold := hInv oid' r'
        unfold activeGrantCount at hold ⊢
        dsimp only [MemStorage.createTemporaryAccess]
        apply count_append_le _ _ _ ?_ hold
        intro hpg a ha hpa
        simp only [Bool.and_eq_true, beq_iff_eq, decide_eq_true_eq] at hpg hpa
        exact (st.getActiveTemporaryAccess_eq_none_iff ownershipId
          (lowercase recipientAddress) now).mp hnone a ha
          ⟨by rw [hpa.1.1.1, ← hpg.1.1.1],
           by rw [hpa.1.1.2, ← hpg.1.1.2], hpa.1.2, hpa.2⟩

/-- Witness for C1 amended: sharing on `C8State` (empty grant table, so the
invariant holds) keeps the invariant. -/
theorem C1_witness :
    DelegatedAccessInvariant C8State 0
    ∧ DelegatedAccessInvariant
        ((shareAccess C8State 1 "0xRecipient" 100 0).2) 0 := by
  have h : DelegatedAccessInvariant C8State 0 := by
    intro oid r
    simp [activeGrantCount, C8State]
  exact ⟨h, C1_share_preserves_uniqueness C8State 1 "0xRecipient" 100 0 h⟩

/-- C8: while a grant for (ownership, recipient) is still effectively
active, sharing again fails with the duplicate error; after revoking the
first grant, or at any time at or past its expiry, sharing succeeds again. -/
theorem C8_duplicate_then_retry (st : MemStorage) (oid : Nat)
    (o : NftOwnership) (r : String) (e1 e2 now1 now2 now3 : Int)
    (hown : st.getNftOwnership oid = some o) (hr : r ≠ "")
    (hnone : st.getActiveTemporaryAccess oid r now1 = none)
    (ht : now1 ≤ now2) :
    ∃ g st1,
      shareAccess st oid r e1 now1 = (.created g, st1)
      ∧ (e1 > now2 →
          shareAccess st1 oid r e2 now2 = (.duplicateActiveGrant, st1))
      ∧ (∃ g2 st2,
          shareAccess ((st1.deactivateTemporaryAccess g.id).2) oid r e2 now2 =
            (.created g2, st2))
      ∧ (now1 ≤ now3 → e1 ≤ now3 → ∃ g3 st3,
          shareAccess st1 oid r e2 now3 = (.created g3, st3)) := by
  have h1 := shareAccess_created st oid r e1 now1 hr o hown hnone
  have hnone' := (st.getActiveTemporaryAccess_eq_none_iff oid r now1).mp hnone
  have hold2 : ∀ n : Int, now1 ≤ n → ∀ a ∈ st.temporaryAccesses,
      ¬(a.ownershipId = oid ∧ lowercase a.recipientAddress = lowercase r ∧
        a.isActive = true ∧ a.expiresAt > n) := by
    intro n hn a ha hc
    exact hnone' a ha ⟨hc.1, hc.2.1, hc.2.2.1, lt_of_le_of_lt hn hc.2.2.2⟩
  refine ⟨_, _, h1, ?_, ?_, ?_⟩
  · intro he
    refine shareAccess_duplicate _ oid r e2 now2 hr o ?_ ?_
    · exact hown
    · rw [MemStorage.getActiveTemporaryAccess_isSome_iff]
      refine ⟨{ id := st.temporaryAccessId, ownershipId := oid,
                recipientAddress := lowercase r, expiresAt := e1,
                isActive := true, createdAt := now1 }, ?_, rfl,
              lowercase_idem r, rfl, he⟩
      simp
  · have hnone2 :
        (((({ st with
            temporaryAccesses := st.temporaryAccesses ++
              [{ id := st.temporaryAccessId, ownershipId := oid,
                 recipientAddress := lowercase r, expiresAt := e1,
                 isActive := true, createdAt := now1 }],
            temporaryAccessId := st.temporaryAccessId + 1 } :
          MemStorage).deactivateTemporaryAccess st.temporaryAccessId).2).getActiveTemporaryAccess
            oid r now2) = none := by
      rw [MemStorage.getActiveTemporaryAccess_eq_none_iff]
      intro b hb hc
      rcases MemStorage.mem_deactivate_cases _ st.temporaryAccessId hb with
        hinact | ⟨hbmem, hbid⟩
      · rw [hinact] at hc
        exact Bool.false_ne_true hc.2.2.1
      · rcases List.mem_append.mp hbmem with hbold | hbg
        · exact hold2 now2 ht b hbold hc
        · simp only [List.mem_singleton] at hbg
          exact hbid (by rw [hbg])
    have hoships := MemStorage.deactivateTemporaryAccess_frame
      ({ st with
          temporaryAccesses := st.temporaryAccesses ++
            [{ id := st.temporaryAccessId, ownershipId := oid,
               recipientAddress := lowercase r, expiresAt := e1,
               isActive := true, createdAt := now1 }],
          temporaryAccessId := st.temporaryAccessId + 1 } : MemStorage)
      st.temporaryAccessId
    refine ⟨_, _, shareAccess_created _ oid r e2 now2 hr o ?_ hnone2⟩
    unfold MemStorage.getNftOwnership
    rw [hoships.2.2.1]
    exact hown
  · intro hn3 he
    have hnone3 :
        (({ st with
            temporaryAccesses := st.temporaryAccesses ++
              [{ id := st.temporaryAccessId, ownershipId := oid,
                 recipientAddress := lowercase r, expiresAt := e1,
                 isActive := true, createdAt := now1 }],
            temporaryAccessId := st.temporaryAccessId + 1 } :
          MemStorage).getActiveTemporaryAccess oid r now3) = none := by
      rw [MemStorage.getActiveTemporaryAccess_eq_none_iff]
      intro b hb hc
      rcases List.mem_append.mp hb with hbold | hbg
      · exact hold2 now3 hn3 b hbold hc
      · simp only [List.mem_singleton] at hbg
        rw [hbg] at hc
        exact absurd hc.2.2.2 (not_lt.mpr he)
    exact ⟨_, _, shareAccess_created _ oid r e2 now3 hr o hown hnone3⟩

/-- Witness for C8: on `C8State`, sharing to `0xShare` until time 100
succeeds; sharing again at time 50 hits the duplicate error; after revoking
the grant it succeeds; and at time 150 (past expiry) it succeeds. -/
theorem C8_witness :
    ∃ g st1,
      shareAccess C8State 1 "0xShare" 100 0 = (.created g, st1)
      ∧ shareAccess st1 1 "0xShare" 200 50 = (.duplicateActiveGrant, st1)
      ∧ (∃ g2 st2,
          shareAccess ((st1.deactivateTemporaryAccess g.id).2) 1 "0xShare"
            200 50 = (.created g2, st2))
      ∧ (∃ g3 st3,
          shareAccess st1 1 "0xShare" 200 150 = (.created g3, st3)) := by
  obtain ⟨g, st1, hfirst, hdup, hrev, hexp⟩ :=
    C8_duplicate_then_retry C8State 1
      { id := 1, courseId := 1, ownerId := 1, tokenId := "1", mintedAt := 0,
        transactionHash := none }
      "0xShare" 100 200 0 50 150 (by decide) (by decide) (by decide)
      (by decide)
  exact ⟨g, st1, hfirst, hdup (by decide), hrev,
    hexp (by decide) (by decide)⟩
